/-
Verification of the omnis-dashboard-ext query-aggregation and refresh/drilldown
core against its natural-language specification.

Shallow embedding of:
  * src/data/clickhouse.ts  — filter model, parameterized query builder
    (buildWhereClause), and the three aggregation functions
    (getHealthOverview, getTopTalkers, getTrafficTimeline);
  * src/server.ts           — the tool surface (show_network_dashboard,
    refresh_dashboard_data) as far as it fixes the filters passed down;
  * src/apps/health-dashboard/src/App.tsx — the client view state machine
    (refreshData, handleHoursChange, handleAppClick) as pure reducers over
    the component state, and the top-level render dispatch.

Modelling conventions:
  * JavaScript numbers are modelled as ℚ; NaN is modelled as `none` in
    `Option ℚ` where a NaN can actually arise (the string-coercion layer).
  * JavaScript truthiness of an optional value (`if (filters.sensor_ip)`,
    `filters.hours || 24`) is modelled explicitly: an absent value, the
    empty string and the number 0 are falsy.
  * The ClickHouse store is an external collaborator; its execution of the
    SQL text that the code sends (WHERE / GROUP BY / ORDER BY / LIMIT) is
    modelled as a Lean function over an abstract fact table, one clause at
    a time, following the query text in src/data/clickhouse.ts.  The
    JSONEachRow wire step serializes numerics as text and the code coerces
    them back with Number(); on the integer-valued aggregate columns this
    round trip is the identity, so the pipeline model carries the numeric
    values directly.  The raw text-level coercion itself (Number on string
    fields, `|| 0` defaulting) is modelled separately and exactly, for the
    decode-robustness claim.
  * Fallible operations (a query rejecting or timing out, JSON.parse
    throwing, a tool call erroring) are modelled as Except/Option inputs;
    a try/catch in the source becomes a match on that input.
-/
import Mathlib

namespace OmnisDashboard

/-! ## JavaScript semantics helpers -/

/-- Truthiness of an optional JS string: absent and the empty string are
falsy (`if (filters.sensor_ip)` in buildWhereClause). -/
def strTruthy : Option String → Bool
  | none => false
  | some s => s ≠ ""

/-- Behaviour of `x || d` for an optional JS number `x` known to be a
nonnegative integer: absent and 0 are falsy and give the default. -/
def jsOrNat (x : Option Nat) (d : Nat) : Nat :=
  match x with
  | none => d
  | some n => if n = 0 then d else n

/-- Model of the JS `Number()` coercion on the strings relevant here:
the empty string coerces to 0, a decimal digit string to its value, a
minus sign followed by digits to the negated value, and anything else
(e.g. "garbage") to NaN, modelled as `none`.  (Real `Number()` also
accepts decimal points, exponents and surrounding whitespace; none of the
concrete strings used in the development fall in that gap.) -/
def jsNumber (s : String) : Option ℚ :=
  if s = "" then some 0
  else if s.data.head? = some '-' then
    (digitsToNat s.data.tail).map (fun n => -(n : ℚ))
  else (digitsToNat s.data).map (fun n => (n : ℚ))
where
  /-- Value of a nonempty list of decimal digit characters; `none` if the
  list is empty or contains a non-digit. -/
  digitsToNat : List Char → Option Nat
    | [] => none
    | l => l.foldl (fun acc c =>
        acc.bind (fun n => if c.isDigit then some (10 * n + (c.toNat - 48)) else none))
        (some 0)

/-! ## Filter model (QueryFilters, src/data/clickhouse.ts) -/

/-- Raw filter fields of a query, all optional
(interface QueryFilters in src/data/clickhouse.ts).  The numeric fields
are nonnegative integers at every call site (the zod tool schema constrains
hours to [1,168] and the limit is the literal 10). -/
structure QueryFilters where
  hours : Option Nat
  sensor_ip : Option String
  sensor_name : Option String
  limit : Option Nat
deriving DecidableEq, Repr

/-- Value bound to a named query parameter: a JS number or a string. -/
inductive ParamVal where
  | num (q : ℚ)
  | str (s : String)
deriving DecidableEq, Repr

/-- Result of buildWhereClause: the predicate text plus the
parameter-binding table (interface WhereClauseResult). -/
structure WhereClauseResult where
  clause : String
  params : List (String × ParamVal)
deriving DecidableEq, Repr

/-- Time-window condition pushed first and unconditionally by
buildWhereClause. -/
def timeCondText : String :=
  "timestamp >= now() - INTERVAL {filter_hours:UInt32} HOUR"

/-- Embedding of buildWhereClause (src/data/clickhouse.ts lines 119-141):
the default 24 is applied via `filters.hours || 24`, the time condition is
always pushed, and each sensor condition is pushed exactly when the
corresponding field is truthy, its value going only into the parameter
table. -/
def buildWhereClause (filters : QueryFilters) : WhereClauseResult :=
  let hours := jsOrNat filters.hours 24
  let conditions : List String :=
    [timeCondText]
    ++ (if strTruthy filters.sensor_ip then ["sensor_ip = {filter_sensor_ip:String}"] else [])
    ++ (if strTruthy filters.sensor_name then ["sensor_name = {filter_sensor_name:String}"] else [])
  let params : List (String × ParamVal) :=
    [("filter_hours", ParamVal.num hours)]
    ++ (match filters.sensor_ip with
        | some s => if s ≠ "" then [("filter_sensor_ip", ParamVal.str s)] else []
        | none => [])
    ++ (match filters.sensor_name with
        | some s => if s ≠ "" then [("filter_sensor_name", ParamVal.str s)] else []
        | none => [])
  { clause := if conditions.length > 0 then "WHERE " ++ String.intercalate " AND " conditions else ""
    params := params }

/-! ## Query texts

Whitespace is normalized to single spaces relative to the multi-line
template literals in the source; the text structure (SELECT list, FROM,
spliced WHERE clause, GROUP BY / ORDER BY / LIMIT) is kept verbatim. -/

/-- Text of the overall-metrics query of getHealthOverview. -/
def overallQueryText (filters : QueryFilters) : String :=
  "SELECT count() as total_transactions, countIf(is_error = 1) as error_count, "
  ++ "avg(response_time_ms) as avg_latency_ms, quantile(0.95)(response_time_ms) as p95_latency_ms, "
  ++ "uniq(client_host_ip_address) as unique_clients, uniq(server_host_ip_address) as unique_servers "
  ++ "FROM f_aggregate_telemetry " ++ (buildWhereClause filters).clause

/-- Text of the per-application query of getHealthOverview. -/
def appQueryText (filters : QueryFilters) : String :=
  "SELECT application_name, count() as total_transactions, countIf(is_error = 1) as error_count, "
  ++ "avg(response_time_ms) as avg_latency_ms, quantile(0.95)(response_time_ms) as p95_latency_ms "
  ++ "FROM f_aggregate_telemetry " ++ (buildWhereClause filters).clause
  ++ " GROUP BY application_name ORDER BY total_transactions DESC LIMIT 20"

/-- Text of the getTopTalkers query; the limit appears only as the bound
parameter {query_limit:UInt32}. -/
def topTalkersQueryText (filters : QueryFilters) : String :=
  "SELECT client_host_ip_address as client_ip, server_host_ip_address as server_ip, "
  ++ "sum(total_bytes) as bytes, count() as request_count "
  ++ "FROM f_aggregate_telemetry " ++ (buildWhereClause filters).clause
  ++ " GROUP BY client_host_ip_address, server_host_ip_address ORDER BY bytes DESC LIMIT {query_limit:UInt32}"

/-- Parameter table sent with the getTopTalkers query:
`{ ...params, query_limit: limit }` with `limit = filters.limit || 10`. -/
def topTalkersQueryParams (filters : QueryFilters) : List (String × ParamVal) :=
  (buildWhereClause filters).params
  ++ [("query_limit", ParamVal.num (jsOrNat filters.limit 10))]

/-- Text of the getTrafficTimeline query. -/
def timelineQueryText (filters : QueryFilters) : String :=
  "SELECT toStartOfHour(timestamp) as hour, count() as requests, countIf(is_error = 1) as errors "
  ++ "FROM f_aggregate_telemetry " ++ (buildWhereClause filters).clause
  ++ " GROUP BY hour ORDER BY hour"

/-! ## Store semantics: the fact table and the execution of the queries

The ClickHouse store is external; what the code controls is the SQL text
it sends.  Each executor function below implements the clauses of one
query text over an abstract fact table `f_aggregate_telemetry`, given the
evaluation time `now` (seconds since epoch). -/

/-- Row of the fact table f_aggregate_telemetry, restricted to the columns
the queries read. -/
structure TelemetryRow where
  timestamp : Int
  is_error : Bool
  response_time_ms : ℚ
  client_host_ip_address : String
  server_host_ip_address : String
  total_bytes : Nat
  application_name : String
  sensor_ip : String
  sensor_name : String
deriving DecidableEq, Repr

/-- Semantics of the WHERE clause built by buildWhereClause:
`timestamp >= now() - INTERVAL hours HOUR` always, plus sensor equality
conditions exactly when the corresponding filter field is truthy. -/
def matchesWhere (now : Int) (filters : QueryFilters) (r : TelemetryRow) : Bool :=
  (decide (r.timestamp ≥ now - (jsOrNat filters.hours 24 : Int) * 3600))
  && (match filters.sensor_ip with
      | some s => if s ≠ "" then r.sensor_ip == s else true
      | none => true)
  && (match filters.sensor_name with
      | some s => if s ≠ "" then r.sensor_name == s else true
      | none => true)

/-- Rows of the fact table selected by the WHERE clause. -/
def selectedRows (now : Int) (filters : QueryFilters) (table : List TelemetryRow) :
    List TelemetryRow :=
  table.filter (matchesWhere now filters)

/-- Semantics of `countIf(is_error = 1)`. -/
def errorCountOf (rows : List TelemetryRow) : Nat :=
  (rows.filter (·.is_error)).length

/-- Semantics of `avg(response_time_ms)`: NULL (serialized from NaN) on an
empty set, modelled as `none`. -/
def avgLatencyOf (rows : List TelemetryRow) : Option ℚ :=
  if rows.length = 0 then none
  else some ((rows.map (·.response_time_ms)).sum / rows.length)

/-- Model of `quantile(0.95)(response_time_ms)`: the element at rank
⌊0.95·n⌋ of the sorted latencies, NULL on an empty set.  (ClickHouse's
quantile is an interpolating estimator; no claim constrains its value,
only that it exists on nonempty input.) -/
def p95LatencyOf (rows : List TelemetryRow) : Option ℚ :=
  if rows.length = 0 then none
  else
    some (((rows.map (·.response_time_ms)).insertionSort (· ≤ ·)).getD
      (rows.length * 95 / 100) 0)

/-- Semantics of `uniq(column)`: number of distinct values. -/
def uniqCount (l : List String) : Nat := l.dedup.length

/-- Aggregate row of the overall-metrics query (one row, always present,
even over an empty selection). -/
structure OverallAgg where
  total_transactions : Nat
  error_count : Nat
  avg_latency_ms : Option ℚ
  p95_latency_ms : Option ℚ
  unique_clients : Nat
  unique_servers : Nat
deriving DecidableEq, Repr

/-- Execution of the overall-metrics query of getHealthOverview. -/
def runOverallQuery (now : Int) (filters : QueryFilters) (table : List TelemetryRow) :
    OverallAgg :=
  let rows := selectedRows now filters table
  { total_transactions := rows.length
    error_count := errorCountOf rows
    avg_latency_ms := avgLatencyOf rows
    p95_latency_ms := p95LatencyOf rows
    unique_clients := uniqCount (rows.map (·.client_host_ip_address))
    unique_servers := uniqCount (rows.map (·.server_host_ip_address)) }

/-- Aggregate row of the per-application query. -/
structure AppAgg where
  application_name : String
  total_transactions : Nat
  error_count : Nat
  avg_latency_ms : Option ℚ
  p95_latency_ms : Option ℚ
deriving DecidableEq, Repr

/-- GROUP BY application_name over a selection: one aggregate row per
distinct application name, in first-appearance order. -/
def appGroups (rows : List TelemetryRow) : List AppAgg :=
  ((rows.map (·.application_name)).dedup).map (fun nm =>
    let g := rows.filter (fun r => r.application_name == nm)
    { application_name := nm
      total_transactions := g.length
      error_count := errorCountOf g
      avg_latency_ms := avgLatencyOf g
      p95_latency_ms := p95LatencyOf g })

/-- Execution of the per-application query: group, ORDER BY
total_transactions DESC, LIMIT 20. -/
def runAppQuery (now : Int) (filters : QueryFilters) (table : List TelemetryRow) :
    List AppAgg :=
  (((appGroups (selectedRows now filters table)).insertionSort
      (fun x y => y.total_transactions ≤ x.total_transactions)).take 20)

/-- Aggregate row of the getTopTalkers query. -/
structure TalkerAgg where
  client_ip : String
  server_ip : String
  bytes : Nat
  request_count : Nat
deriving DecidableEq, Repr

/-- GROUP BY client/server pair over a selection, in first-appearance
order. -/
def talkerGroups (rows : List TelemetryRow) : List TalkerAgg :=
  ((rows.map (fun r => (r.client_host_ip_address, r.server_host_ip_address))).dedup).map
    (fun p =>
      let g := rows.filter (fun r =>
        r.client_host_ip_address == p.1 && r.server_host_ip_address == p.2)
      { client_ip := p.1
        server_ip := p.2
        bytes := (g.map (·.total_bytes)).sum
        request_count := g.length })

/-- Execution of the getTopTalkers query: group, ORDER BY bytes DESC,
LIMIT {query_limit} with `limit = filters.limit || 10`. -/
def runTopTalkersQuery (now : Int) (filters : QueryFilters) (table : List TelemetryRow) :
    List TalkerAgg :=
  (((talkerGroups (selectedRows now filters table)).insertionSort
      (fun x y => y.bytes ≤ x.bytes)).take (jsOrNat filters.limit 10))

/-- Semantics of `toStartOfHour(timestamp)`: start of the hour bucket, in
seconds (the code carries it onward as an opaque datetime string whose
order agrees with this value). -/
def bucketOf (r : TelemetryRow) : Int := (r.timestamp.ediv 3600) * 3600

/-- Aggregate row of the getTrafficTimeline query. -/
structure TimelineAgg where
  hour : Int
  requests : Nat
  errors : Nat
deriving DecidableEq, Repr

/-- Execution of the getTrafficTimeline query: GROUP BY hour bucket,
ORDER BY hour ascending.  Only buckets containing at least one selected
row exist. -/
def runTimelineQuery (now : Int) (filters : QueryFilters) (table : List TelemetryRow) :
    List TimelineAgg :=
  let rows := selectedRows now filters table
  (((rows.map bucketOf).dedup).insertionSort (· ≤ ·)).map (fun b =>
    let g := rows.filter (fun r => bucketOf r == b)
    { hour := b, requests := g.length, errors := errorCountOf g })

/-! ## Result shapes and the three aggregation functions

Each aggregation function takes, besides the filters, the abstract fact
table and clock, and an `outcome` input standing for the fate of the store
round trip (`Except.error` models a query rejecting or timing out; the
`try`/`catch` of the source becomes the match on it).  The functions are
total: no failure propagates to the caller. -/

/-- Result shape ApplicationMetrics (camelCase, after decode).  Numeric
fields carry the aggregate values; the JSONEachRow text round trip is the
identity on them (see the file comment). -/
structure ApplicationMetrics where
  applicationName : String
  totalTransactions : Nat
  errorCount : Nat
  avgLatencyMs : ℚ
  p95LatencyMs : ℚ
deriving DecidableEq, Repr

/-- Result shape HealthOverviewData. -/
structure HealthOverviewData where
  totalTransactions : Nat
  errorRate : ℚ
  avgLatencyMs : ℚ
  p95LatencyMs : ℚ
  uniqueClients : Nat
  uniqueServers : Nat
  applications : List ApplicationMetrics
deriving DecidableEq, Repr

/-- Result shape TopTalkerData. -/
structure TopTalkerData where
  clientIp : String
  serverIp : String
  bytes : Nat
  requestCount : Nat
deriving DecidableEq, Repr

/-- Result shape TrafficTimelinePoint.  The hour is carried as the bucket
start (the code passes the store's datetime string through unchanged). -/
structure TrafficTimelinePoint where
  hour : Int
  requests : Nat
  errors : Nat
deriving DecidableEq, Repr

/-- Zero/empty HealthOverviewData returned from the catch branch of
getHealthOverview. -/
def emptyHealthOverview : HealthOverviewData :=
  { totalTransactions := 0
    errorRate := 0
    avgLatencyMs := 0
    p95LatencyMs := 0
    uniqueClients := 0
    uniqueServers := 0
    applications := [] }

/-- Decode of one per-application row (the `apps.map` of the source);
`Number()` on the serialized aggregates restores the numeric values, and
the NULL avg/p95 of an impossible empty group would coerce to 0 via
`Number(null)`. -/
def decodeAppAgg (a : AppAgg) : ApplicationMetrics :=
  { applicationName := a.application_name
    totalTransactions := a.total_transactions
    errorCount := a.error_count
    avgLatencyMs := a.avg_latency_ms.getD 0
    p95LatencyMs := a.p95_latency_ms.getD 0 }

/-- Embedding of getHealthOverview (src/data/clickhouse.ts lines 150-224).
On success the two queries (run concurrently in the source via
Promise.all; their results are independent) are decoded: the error rate is
`totalTransactions > 0 ? (errorCount / totalTransactions) * 100 : 0`, the
NULL avg/p95 of an empty selection decode to 0 through
`Number(overall?.avg_latency_ms || 0)`.  On any query failure the catch
branch returns the all-zero shape. -/
def getHealthOverview (now : Int) (filters : QueryFilters) (table : List TelemetryRow)
    (outcome : Except Unit Unit) : HealthOverviewData :=
  match outcome with
  | .error _ => emptyHealthOverview
  | .ok _ =>
    let overall := runOverallQuery now filters table
    let apps := runAppQuery now filters table
    { totalTransactions := overall.total_transactions
      errorRate :=
        if overall.total_transactions > 0 then
          ((overall.error_count : ℚ) / (overall.total_transactions : ℚ)) * 100
        else 0
      avgLatencyMs := overall.avg_latency_ms.getD 0
      p95LatencyMs := overall.p95_latency_ms.getD 0
      uniqueClients := overall.unique_clients
      uniqueServers := overall.unique_servers
      applications := apps.map decodeAppAgg }

/-- Embedding of getTopTalkers (lines 229-266): decode of the grouped rows
on success, empty list from the catch branch on failure. -/
def getTopTalkers (now : Int) (filters : QueryFilters) (table : List TelemetryRow)
    (outcome : Except Unit Unit) : List TopTalkerData :=
  match outcome with
  | .error _ => []
  | .ok _ =>
    (runTopTalkersQuery now filters table).map (fun r =>
      { clientIp := r.client_ip
        serverIp := r.server_ip
        bytes := r.bytes
        requestCount := r.request_count })

/-- Embedding of getTrafficTimeline (lines 271-301): decode of the bucket
rows on success, empty list from the catch branch on failure. -/
def getTrafficTimeline (now : Int) (filters : QueryFilters) (table : List TelemetryRow)
    (outcome : Except Unit Unit) : List TrafficTimelinePoint :=
  match outcome with
  | .error _ => []
  | .ok _ =>
    (runTimelineQuery now filters table).map (fun r =>
      { hour := r.hour, requests := r.requests, errors := r.errors })

/-! ## Tool surface (src/server.ts)

Both tools validate their input through the same zod schema (hours
defaulted to 24 by zod, sensor fields optional) and pass the same filter
records down; both pass `limit: 10` to getTopTalkers. -/

/-- Filters that show_network_dashboard and refresh_dashboard_data pass to
getHealthOverview and getTrafficTimeline: `{ hours, sensor_ip, sensor_name }`. -/
def toolBaseFilters (hours : Nat) (sensor_ip sensor_name : Option String) : QueryFilters :=
  { hours := some hours, sensor_ip := sensor_ip, sensor_name := sensor_name, limit := none }

/-- Filters that both tools pass to getTopTalkers:
`{ hours, sensor_ip, sensor_name, limit: 10 }`. -/
def toolTalkerFilters (hours : Nat) (sensor_ip sensor_name : Option String) : QueryFilters :=
  { hours := some hours, sensor_ip := sensor_ip, sensor_name := sensor_name, limit := some 10 }

/-- Top-talkers list computed by either tool handler. -/
def toolTopTalkers (now : Int) (hours : Nat) (sensor_ip sensor_name : Option String)
    (table : List TelemetryRow) (outcome : Except Unit Unit) : List TopTalkerData :=
  getTopTalkers now (toolTalkerFilters hours sensor_ip sensor_name) table outcome

/-! ## Raw text-level decode (the shape-cast layer, exactly as written)

ClickHouse JSONEachRow returns every numeric as a string (the Row
interfaces of the source type them as string); the code coerces with
`Number()`.  These definitions embed that coercion verbatim, with `none`
standing for NaN, to settle what the decode step does with malformed or
negative text. -/

/-- Raw overall row as typed by interface HealthOverviewRow (all string
fields). -/
structure HealthOverviewRowS where
  total_transactions : String
  error_count : String
  avg_latency_ms : String
  p95_latency_ms : String
  unique_clients : String
  unique_servers : String
deriving DecidableEq, Repr

/-- Raw per-application row as typed by interface ApplicationRow. -/
structure ApplicationRowS where
  application_name : String
  total_transactions : String
  error_count : String
  avg_latency_ms : String
  p95_latency_ms : String
deriving DecidableEq, Repr

/-- Raw top-talker row as typed by interface TopTalkerRow. -/
structure TopTalkerRowS where
  client_ip : String
  server_ip : String
  bytes : String
  request_count : String
deriving DecidableEq, Repr

/-- Coercion `Number(overall?.f || 0)` used for the six overall fields: an
absent row or a falsy (empty) field gives 0, any other string goes through
`Number()` unvalidated. -/
def decodeOverallField (row : Option HealthOverviewRowS)
    (f : HealthOverviewRowS → String) : Option ℚ :=
  match row with
  | none => some 0
  | some r => if f r = "" then some 0 else jsNumber (f r)

/-- ApplicationMetrics as actually produced by the text-level decode:
each numeric field is whatever `Number()` yields, possibly NaN (`none`) or
negative. -/
structure ApplicationMetricsDecoded where
  applicationName : String
  totalTransactions : Option ℚ
  errorCount : Option ℚ
  avgLatencyMs : Option ℚ
  p95LatencyMs : Option ℚ
deriving DecidableEq, Repr

/-- TopTalkerData as actually produced by the text-level decode. -/
structure TopTalkerDecoded where
  clientIp : String
  serverIp : String
  bytes : Option ℚ
  requestCount : Option ℚ
deriving DecidableEq, Repr

/-- Coercion of one application row, as in the `apps.map` callback:
`Number(app.total_transactions)` etc., with no fallback and no
validation. -/
def decodeAppRowS (a : ApplicationRowS) : ApplicationMetricsDecoded :=
  { applicationName := a.application_name
    totalTransactions := jsNumber a.total_transactions
    errorCount := jsNumber a.error_count
    avgLatencyMs := jsNumber a.avg_latency_ms
    p95LatencyMs := jsNumber a.p95_latency_ms }

/-- Coercion of one top-talker row, as in the `rows.map` callback:
`Number(row.bytes)`, `Number(row.request_count)`, no fallback. -/
def decodeTalkerRowS (r : TopTalkerRowS) : TopTalkerDecoded :=
  { clientIp := r.client_ip
    serverIp := r.server_ip
    bytes := jsNumber r.bytes
    requestCount := jsNumber r.request_count }

/-! ## Client view state machine (src/apps/health-dashboard/src/App.tsx)

The React component state is embedded as a record and each async handler
as a pure reducer over it.  The fate of one `callServerTool` round trip
(including the subsequent JSON.parse) is an input:
  * `Except.error ()`       — the call rejected or JSON.parse threw
                              (both land in the source's catch block);
  * `Except.ok none`        — the call resolved but the content array was
                              missing or empty (the source skips the
                              update silently);
  * `Except.ok (some d)`    — the payload parsed.
The `if (!currentApp) return` connectivity guards are outside the model
(the reducers describe the connected case). -/

/-- Payload of a refresh_dashboard_data response (interface
DashboardData), as held in the client snapshot. -/
structure DashboardData where
  healthOverview : HealthOverviewData
  topTalkers : List TopTalkerData
  trafficTimeline : List TrafficTimelinePoint
  filterHours : Nat
  generatedAt : String
deriving DecidableEq, Repr

/-- Per-application drilldown payload (interface ApplicationDetails),
restricted to the overview record the detail view reads; the
topClients/topServers/timeline lists are opaque to every state
transition. -/
structure ApplicationDetails where
  applicationName : String
  totalTransactions : Nat
  errorRate : ℚ
deriving DecidableEq, Repr

/-- Component state of App: the useState hooks of the source. -/
structure ClientState where
  data : Option DashboardData
  loading : Bool
  error : Option String
  hours : Nat
  selectedApp : Option String
  appDetails : Option ApplicationDetails
  loadingDetails : Bool
  lastUpdated : Option String
deriving DecidableEq, Repr

/-- Reducer of refreshData (App.tsx lines 263-288): on a parsed payload the
snapshot is replaced and the error flag cleared; on an empty content array
nothing but the loading flag changes; on a caught failure the error flag
is set to "Failed to refresh data" and the snapshot is left alone.  The
finally block clears the loading flag on every path. -/
def refreshData (s : ClientState) (outcome : Except Unit (Option DashboardData)) :
    ClientState :=
  match outcome with
  | .ok (some d) =>
      { s with data := some d, lastUpdated := some d.generatedAt,
               error := none, loading := false }
  | .ok none => { s with loading := false }
  | .error _ =>
      { s with error := some "Failed to refresh data", loading := false }

/-- Reducer of handleHoursChange (App.tsx lines 301-327): the hours state
is set before the fetch on every path; on success the snapshot is replaced
(without clearing the error flag); on an empty content array nothing else
changes; on a caught failure the handler only logs — the error flag is not
touched. -/
def handleHoursChange (s : ClientState) (newHours : Nat)
    (outcome : Except Unit (Option DashboardData)) : ClientState :=
  let base := { s with hours := newHours }
  match outcome with
  | .ok (some d) =>
      { base with data := some d, lastUpdated := some d.generatedAt, loading := false }
  | .ok none => { base with loading := false }
  | .error _ => { base with loading := false }

/-- Reducer of handleAppClick (App.tsx lines 329-354): a falsy application
name is a no-op; otherwise the app is selected and the details cleared
before the fetch; on success the details are stored; on an empty content
array or a caught failure the handler only logs — the details stay `none`
and the error flag is not touched.  The finally block clears
loadingDetails on every path. -/
def handleAppClick (s : ClientState) (appName : Option String)
    (outcome : Except Unit (Option ApplicationDetails)) : ClientState :=
  match appName with
  | none => s
  | some nm =>
    if nm = "" then s
    else
      let base := { s with selectedApp := some nm, appDetails := none }
      match outcome with
      | .ok (some d) => { base with appDetails := some d, loadingDetails := false }
      | .ok none => { base with appDetails := none, loadingDetails := false }
      | .error _ => { base with appDetails := none, loadingDetails := false }

/-- Reducer of handleBackToOverview (App.tsx lines 357-360). -/
def handleBackToOverview (s : ClientState) : ClientState :=
  { s with selectedApp := none, appDetails := none }

/-- What the component renders, per the top-level dispatch of App. -/
inductive View where
  /-- Full-page loading skeleton (loading with no snapshot). -/
  | skeleton
  /-- Explicit error card (error flag with no snapshot). -/
  | errorCard
  /-- Static "No Data" card. -/
  | noData
  /-- Detail view still showing its loading skeleton (no details). -/
  | detailSkeleton
  /-- Populated per-application detail view. -/
  | detailView
  /-- Overview dashboard. -/
  | overview
deriving DecidableEq, Repr

/-- Render dispatch of App (App.tsx lines 362-413 and the
`loading || !details` branch of ApplicationDetailView): loading and error
screens only when no snapshot is held; with a snapshot and a selected
application, the detail view shows its skeleton until details arrive. -/
def renderView (s : ClientState) : View :=
  if s.loading && s.data = none then View.skeleton
  else if s.error ≠ none && s.data = none then View.errorCard
  else if s.data = none then View.noData
  else
    match s.selectedApp with
    | some _ =>
        if s.loadingDetails || s.appDetails = none then View.detailSkeleton
        else View.detailView
    | none => View.overview

/-! ## Theorems -/

/-- C1: for every filter input, the predicate string of buildWhereClause
and the full query texts of getHealthOverview, getTopTalkers and
getTrafficTimeline are independent of the user-supplied values, depending
only on which optional sensor fields are present (in the JS sense: a
provided, non-empty value); and every user-supplied value — time window,
sensor IP, sensor name, top-talkers limit — appears in the bound-parameter
table under its parameter name, never in the query text. -/
theorem queries_value_independent_and_parameterized :
    (∀ f1 f2 : QueryFilters,
        strTruthy f1.sensor_ip = strTruthy f2.sensor_ip →
        strTruthy f1.sensor_name = strTruthy f2.sensor_name →
        (buildWhereClause f1).clause = (buildWhereClause f2).clause
        ∧ overallQueryText f1 = overallQueryText f2
        ∧ appQueryText f1 = appQueryText f2
        ∧ topTalkersQueryText f1 = topTalkersQueryText f2
        ∧ timelineQueryText f1 = timelineQueryText f2)
    ∧ (∀ f : QueryFilters,
        ("filter_hours", ParamVal.num (jsOrNat f.hours 24)) ∈ (buildWhereClause f).params
        ∧ (∀ s, f.sensor_ip = some s → s ≠ "" →
            ("filter_sensor_ip", ParamVal.str s) ∈ (buildWhereClause f).params)
        ∧ (∀ s, f.sensor_name = some s → s ≠ "" →
            ("filter_sensor_name", ParamVal.str s) ∈ (buildWhereClause f).params)
        ∧ ("query_limit", ParamVal.num (jsOrNat f.limit 10)) ∈ topTalkersQueryParams f) := by
  constructor
  · intro f1 f2 h1 h2
    have hc : (buildWhereClause f1).clause = (buildWhereClause f2).clause := by
      simp only [buildWhereClause, h1, h2]
    refine ⟨hc, ?_, ?_, ?_, ?_⟩ <;>
      simp only [overallQueryText, appQueryText, topTalkersQueryText, timelineQueryText, hc]
  · intro f
    refine ⟨?_, ?_, ?_, ?_⟩
    · simp [buildWhereClause]
    · intro s hs hne
      simp [buildWhereClause, hs, hne]
    · intro s hs hne
      simp [buildWhereClause, hs, hne]
    · simp [topTalkersQueryParams]

/-- Witness for C1 at concrete inputs: two filter sets with the same
presence pattern but different values produce identical query text, and a
concrete sensor IP is bound under filter_sensor_ip. -/
theorem queries_value_independent_witness :
    strTruthy (some "1.2.3.4") = strTruthy (some "9.9.9.9")
    ∧ (buildWhereClause ⟨some 6, some "1.2.3.4", some "sensorA", some 5⟩).clause
        = (buildWhereClause ⟨some 48, some "9.9.9.9", some "sensorB", some 7⟩).clause
    ∧ topTalkersQueryText ⟨some 6, some "1.2.3.4", some "sensorA", some 5⟩
        = topTalkersQueryText ⟨some 48, some "9.9.9.9", some "sensorB", some 7⟩
    ∧ ("filter_sensor_ip", ParamVal.str "1.2.3.4")
        ∈ (buildWhereClause ⟨some 6, some "1.2.3.4", some "sensorA", some 5⟩).params :=
  ⟨by decide,
   (queries_value_independent_and_parameterized.1
      ⟨some 6, some "1.2.3.4", some "sensorA", some 5⟩
      ⟨some 48, some "9.9.9.9", some "sensorB", some 7⟩ (by decide) (by decide)).1,
   (queries_value_independent_and_parameterized.1
      ⟨some 6, some "1.2.3.4", some "sensorA", some 5⟩
      ⟨some 48, some "9.9.9.9", some "sensorB", some 7⟩ (by decide) (by decide)).2.2.2.1,
   (queries_value_independent_and_parameterized.2
      ⟨some 6, some "1.2.3.4", some "sensorA", some 5⟩).2.1 "1.2.3.4" rfl (by decide)⟩

/-- C2: on any store query failure (a rejection or timeout of the round
trip), getHealthOverview returns the all-zero HealthOverview,
getTopTalkers the empty list, getTrafficTimeline the empty list — for
every filter input and fact table.  The three embeddings are total
functions, so no exception propagates to the caller on any path. -/
theorem aggregations_degrade_to_empty_on_failure :
    ∀ (now : Int) (filters : QueryFilters) (table : List TelemetryRow),
      getHealthOverview now filters table (Except.error ()) = emptyHealthOverview
      ∧ getTopTalkers now filters table (Except.error ()) = []
      ∧ getTrafficTimeline now filters table (Except.error ()) = [] := by
  intro now filters table
  exact ⟨rfl, rfl, rfl⟩

/-- C10: the WHERE clause of buildWhereClause is never the empty string —
the empty-clause branch is unreachable — and it always starts with the
time-window predicate; when the hours field is absent the bound
filter_hours parameter is the default 24, so no query runs unscoped over
the whole fact table. -/
theorem whereClause_always_time_scoped :
    (∀ f : QueryFilters, ∃ rest,
        (buildWhereClause f).clause = "WHERE " ++ timeCondText ++ rest)
    ∧ (∀ f : QueryFilters, (buildWhereClause f).clause ≠ "")
    ∧ (∀ ip nm lim,
        ((buildWhereClause ⟨none, ip, nm, lim⟩).params).lookup "filter_hours"
          = some (ParamVal.num 24)) := by
  refine ⟨?_, ?_, ?_⟩
  · intro f
    cases h1 : strTruthy f.sensor_ip <;> cases h2 : strTruthy f.sensor_name <;>
      simp only [buildWhereClause, h1, h2]
    · exact ⟨"", by decide⟩
    · exact ⟨" AND sensor_name = {filter_sensor_name:String}", by decide⟩
    · exact ⟨" AND sensor_ip = {filter_sensor_ip:String}", by decide⟩
    · exact ⟨" AND sensor_ip = {filter_sensor_ip:String} AND sensor_name = {filter_sensor_name:String}",
        by decide⟩
  · intro f
    cases h1 : strTruthy f.sensor_ip <;> cases h2 : strTruthy f.sensor_name <;>
      simp only [buildWhereClause, h1, h2] <;> decide
  · intro ip nm lim
    cases ip <;> cases nm <;>
      simp [buildWhereClause, jsOrNat, List.lookup, strTruthy]

/-- Witness for C10 at the concrete all-absent filter record: the bound
filter_hours parameter is the default 24. -/
theorem whereClause_time_scoped_witness :
    ((buildWhereClause ⟨none, none, none, none⟩).params).lookup "filter_hours"
      = some (ParamVal.num 24) :=
  whereClause_always_time_scoped.2.2 none none none

/-- Insertion sort by a descending numeric key is pairwise non-increasing
in that key. -/
theorem pairwise_insertionSort_keyDesc {α : Type} (key : α → Nat) (l : List α) :
    (l.insertionSort (fun x y => key y ≤ key x)).Pairwise (fun x y => key y ≤ key x) := by
  haveI : IsTotal α (fun x y => key y ≤ key x) := ⟨fun a b => le_total (key b) (key a)⟩
  haveI : IsTrans α (fun x y => key y ≤ key x) := ⟨fun a b c h1 h2 => le_trans h2 h1⟩
  exact List.sorted_insertionSort _ l

/-- C5: for every filter input, clock, fact table and query outcome, the
applications list of getHealthOverview is non-increasing in
totalTransactions and has at most 20 entries (the per-application query
orders by transaction count descending and limits to 20; the failure
branch returns the empty list). -/
theorem applications_sorted_and_capped :
    ∀ (now : Int) (filters : QueryFilters) (table : List TelemetryRow)
      (outcome : Except Unit Unit),
      ((getHealthOverview now filters table outcome).applications).Pairwise
        (fun x y => y.totalTransactions ≤ x.totalTransactions)
      ∧ (getHealthOverview now filters table outcome).applications.length ≤ 20 := by
  intro now filters table outcome
  match outcome with
  | .error _ => exact ⟨List.Pairwise.nil, by simp [getHealthOverview, emptyHealthOverview]⟩
  | .ok _ =>
    constructor
    · show ((runAppQuery now filters table).map decodeAppAgg).Pairwise _
      refine List.pairwise_map.mpr ?_
      have hsorted := pairwise_insertionSort_keyDesc
        (fun a : AppAgg => a.total_transactions)
        (appGroups (selectedRows now filters table))
      exact (hsorted.sublist (List.take_sublist 20 _)).imp (fun h => h)
    · show ((runAppQuery now filters table).map decodeAppAgg).length ≤ 20
      rw [List.length_map]
      exact List.length_take_le _ _

/-- C6: for every filter input, clock, fact table and query outcome, the
getTopTalkers result is non-increasing in bytes and no longer than the
effective limit `filters.limit || 10`; a wholly absent limit means 10; and
both tool handlers pass the literal limit 10, so every tool-surface call
yields at most 10 talkers. -/
theorem topTalkers_sorted_and_limited :
    (∀ (now : Int) (filters : QueryFilters) (table : List TelemetryRow)
       (outcome : Except Unit Unit),
        (getTopTalkers now filters table outcome).Pairwise (fun x y => y.bytes ≤ x.bytes)
        ∧ (getTopTalkers now filters table outcome).length ≤ jsOrNat filters.limit 10)
    ∧ jsOrNat none 10 = 10
    ∧ (∀ hours ip nm, (toolTalkerFilters hours ip nm).limit = some 10)
    ∧ (∀ (now : Int) hours ip nm (table : List TelemetryRow) (outcome : Except Unit Unit),
        (toolTopTalkers now hours ip nm table outcome).length ≤ 10) := by
  have main : ∀ (now : Int) (filters : QueryFilters) (table : List TelemetryRow)
      (outcome : Except Unit Unit),
      (getTopTalkers now filters table outcome).Pairwise (fun x y => y.bytes ≤ x.bytes)
      ∧ (getTopTalkers now filters table outcome).length ≤ jsOrNat filters.limit 10 := by
    intro now filters table outcome
    match outcome with
    | .error _ => exact ⟨List.Pairwise.nil, by simp [getTopTalkers]⟩
    | .ok _ =>
      constructor
      · refine List.pairwise_map.mpr ?_
        have hsorted := pairwise_insertionSort_keyDesc
          (fun a : TalkerAgg => a.bytes)
          (talkerGroups (selectedRows now filters table))
        exact (hsorted.sublist (List.take_sublist _ _)).imp (fun h => h)
      · show ((runTopTalkersQuery now filters table).map _).length ≤ _
        rw [List.length_map]
        exact List.length_take_le _ _
  refine ⟨main, rfl, fun _ _ _ => rfl, ?_⟩
  intro now hours ip nm table outcome
  exact (main now (toolTalkerFilters hours ip nm) table outcome).2

/-- C7: for every filter input, clock, fact table and query outcome, the
getTrafficTimeline result is strictly increasing in the bucket start (so
there is at most one point per hour bucket and no duplicates), and every
point counts at least one request — buckets with zero activity are absent,
not zero-filled. -/
theorem timeline_strictly_increasing_and_sparse :
    ∀ (now : Int) (filters : QueryFilters) (table : List TelemetryRow)
      (outcome : Except Unit Unit),
      (getTrafficTimeline now filters table outcome).Pairwise (fun x y => x.hour < y.hour)
      ∧ ∀ p ∈ getTrafficTimeline now filters table outcome, 1 ≤ p.requests := by
  intro now filters table outcome
  match outcome with
  | .error _ => exact ⟨List.Pairwise.nil, by simp [getTrafficTimeline]⟩
  | .ok _ =>
    set rows := selectedRows now filters table with hrows
    have hbuckets_le : (((rows.map bucketOf).dedup).insertionSort (· ≤ ·)).Pairwise
        (· ≤ ·) := List.sorted_insertionSort _ _
    have hbuckets_nodup : (((rows.map bucketOf).dedup).insertionSort (· ≤ ·)).Nodup :=
      ((List.perm_insertionSort _ _).nodup_iff).mpr (List.nodup_dedup _)
    have hbuckets_lt : (((rows.map bucketOf).dedup).insertionSort (· ≤ ·)).Pairwise
        (· < ·) := (hbuckets_le.and hbuckets_nodup).imp (fun h => lt_of_le_of_ne h.1 h.2)
    constructor
    · show ((runTimelineQuery now filters table).map _).Pairwise _
      refine List.pairwise_map.mpr ?_
      unfold runTimelineQuery
      rw [← hrows]
      exact List.pairwise_map.mpr hbuckets_lt
    · intro p hp
      simp only [getTrafficTimeline, runTimelineQuery, ← hrows, List.mem_map] at hp
      obtain ⟨q, ⟨b, hb, hq⟩, hpq⟩ := hp
      have hbmem : b ∈ (rows.map bucketOf).dedup :=
        (List.perm_insertionSort _ _).mem_iff.mp hb
      obtain ⟨r, hr, hrb⟩ := List.mem_map.mp (List.mem_dedup.mp hbmem)
      have hrg : r ∈ rows.filter (fun rr => bucketOf rr == b) :=
        List.mem_filter.mpr ⟨hr, by simp [hrb]⟩
      have hlen : 1 ≤ (rows.filter (fun rr => bucketOf rr == b)).length :=
        List.length_pos.mpr (List.ne_nil_of_mem hrg)
      have hreq : p.requests = (rows.filter (fun rr => bucketOf rr == b)).length := by
        rw [← hpq, ← hq]
      rw [hreq]
      exact hlen

/-- Witness for C7 at a concrete fact table with two active hour buckets:
the computed timeline is strictly increasing and its first point, which is
a member, has a positive request count. -/
theorem timeline_strictly_increasing_witness :
    (getTrafficTimeline 3700 ⟨none, none, none, none⟩
        [{ timestamp := 0, is_error := false, response_time_ms := 5,
           client_host_ip_address := "c1", server_host_ip_address := "s1",
           total_bytes := 10, application_name := "appA",
           sensor_ip := "si", sensor_name := "sn" },
         { timestamp := 3700, is_error := true, response_time_ms := 7,
           client_host_ip_address := "c2", server_host_ip_address := "s2",
           total_bytes := 20, application_name := "appB",
           sensor_ip := "si", sensor_name := "sn" }] (Except.ok ())).Pairwise
      (fun x y => x.hour < y.hour)
    ∧ 1 ≤ (TrafficTimelinePoint.mk 0 1 0).requests :=
  ⟨(timeline_strictly_increasing_and_sparse 3700 ⟨none, none, none, none⟩
      [{ timestamp := 0, is_error := false, response_time_ms := 5,
         client_host_ip_address := "c1", server_host_ip_address := "s1",
         total_bytes := 10, application_name := "appA",
         sensor_ip := "si", sensor_name := "sn" },
       { timestamp := 3700, is_error := true, response_time_ms := 7,
         client_host_ip_address := "c2", server_host_ip_address := "s2",
         total_bytes := 20, application_name := "appB",
         sensor_ip := "si", sensor_name := "sn" }] (Except.ok ())).1,
   (timeline_strictly_increasing_and_sparse 3700 ⟨none, none, none, none⟩
      [{ timestamp := 0, is_error := false, response_time_ms := 5,
         client_host_ip_address := "c1", server_host_ip_address := "s1",
         total_bytes := 10, application_name := "appA",
         sensor_ip := "si", sensor_name := "sn" },
       { timestamp := 3700, is_error := true, response_time_ms := 7,
         client_host_ip_address := "c2", server_host_ip_address := "s2",
         total_bytes := 20, application_name := "appB",
         sensor_ip := "si", sensor_name := "sn" }] (Except.ok ())).2
     (TrafficTimelinePoint.mk 0 1 0) (by decide)⟩

/-- Concrete one-row fact table: a single successful transaction. -/
def oneOkRowTable : List TelemetryRow :=
  [{ timestamp := 0, is_error := false, response_time_ms := 5,
     client_host_ip_address := "c", server_host_ip_address := "s",
     total_bytes := 1, application_name := "appA",
     sensor_ip := "si", sensor_name := "sn" }]

/-- Concrete filter record with every field absent. -/
def noFilters : QueryFilters := ⟨none, none, none, none⟩

/-- C3 (amended): the errorRate of getHealthOverview equals
100·errorCount/totalTransactions when totalTransactions > 0 and 0 when
totalTransactions = 0 (no division by zero), and it always lies in
[0,100]; errorRate is 0 whenever totalTransactions is 0, but not only
then — a window with transactions and no errors also yields 0, so "equals
0 exactly when totalTransactions = 0" fails in the only-if direction. -/
theorem errorRate_eval (now : Int) (filters : QueryFilters) (table : List TelemetryRow) :
    (getHealthOverview now filters table (Except.ok ())).errorRate
      = if (selectedRows now filters table).length > 0 then
          ((errorCountOf (selectedRows now filters table) : ℚ)
            / ((selectedRows now filters table).length : ℚ)) * 100
        else 0 := rfl

theorem errorRate_formula_and_bounds :
    ∀ (now : Int) (filters : QueryFilters) (table : List TelemetryRow)
      (outcome : Except Unit Unit),
      0 ≤ (getHealthOverview now filters table outcome).errorRate
      ∧ (getHealthOverview now filters table outcome).errorRate ≤ 100
      ∧ ((getHealthOverview now filters table outcome).totalTransactions = 0 →
          (getHealthOverview now filters table outcome).errorRate = 0)
      ∧ (outcome = Except.ok () →
          ((runOverallQuery now filters table).total_transactions > 0 →
            (getHealthOverview now filters table outcome).errorRate
              = 100 * ((runOverallQuery now filters table).error_count : ℚ)
                / ((runOverallQuery now filters table).total_transactions : ℚ))
          ∧ ((runOverallQuery now filters table).total_transactions = 0 →
            (getHealthOverview now filters table outcome).errorRate = 0)) := by
  intro now filters table outcome
  match outcome with
  | .error _ =>
      exact ⟨le_refl 0, (by norm_num : (0:ℚ) ≤ 100), fun _ => rfl, fun h => by simp at h⟩
  | .ok _ =>
      have he : errorCountOf (selectedRows now filters table)
          ≤ (selectedRows now filters table).length := List.length_filter_le _ _
      have hrate := errorRate_eval now filters table
      by_cases ht : (selectedRows now filters table).length = 0
      · rw [hrate, if_neg (by omega)]
        exact ⟨le_refl 0, by norm_num, fun _ => rfl,
          fun _ => ⟨fun hpos => absurd hpos (by simp [runOverallQuery, ht]),
                    fun _ => rfl⟩⟩
      · have htpos : 0 < (selectedRows now filters table).length := Nat.pos_of_ne_zero ht
        have htQ : (0 : ℚ) < ((selectedRows now filters table).length : ℚ) := by
          exact_mod_cast htpos
        have heQ : ((errorCountOf (selectedRows now filters table) : ℚ))
            ≤ ((selectedRows now filters table).length : ℚ) := by exact_mod_cast he
        rw [hrate, if_pos htpos]
        have hdivnn : 0 ≤ (errorCountOf (selectedRows now filters table) : ℚ)
            / ((selectedRows now filters table).length : ℚ) :=
          div_nonneg (by positivity) (le_of_lt htQ)
        have hdivle : (errorCountOf (selectedRows now filters table) : ℚ)
            / ((selectedRows now filters table).length : ℚ) ≤ 1 :=
          (div_le_one htQ).mpr heQ
        refine ⟨by positivity, ?_, ?_, ?_⟩
        · calc (errorCountOf (selectedRows now filters table) : ℚ)
              / ((selectedRows now filters table).length : ℚ) * 100
              ≤ 1 * 100 := mul_le_mul_of_nonneg_right hdivle (by norm_num)
            _ = 100 := one_mul 100
        · intro h0
          exact absurd h0 (by simpa [getHealthOverview, runOverallQuery] using ht)
        · intro _
          constructor
          · intro _
            show _ = 100 * (errorCountOf (selectedRows now filters table) : ℚ)
              / ((selectedRows now filters table).length : ℚ)
            ring
          · intro h0
            exact absurd h0 (by simpa [runOverallQuery] using ht)

/-- Counterexample to C3 as stated: on a one-row window with no errors the
overview has errorRate 0 with totalTransactions 1 ≠ 0, refuting "errorRate
equals 0 exactly when totalTransactions = 0". -/
theorem errorRate_zero_iff_refuted :
    (getHealthOverview 0 noFilters oneOkRowTable (Except.ok ())).errorRate = 0
    ∧ (getHealthOverview 0 noFilters oneOkRowTable (Except.ok ())).totalTransactions = 1 := by
  have h1 : (selectedRows 0 noFilters oneOkRowTable).length = 1 := by decide
  have h2 : errorCountOf (selectedRows 0 noFilters oneOkRowTable) = 0 := by decide
  constructor
  · rw [errorRate_eval, h1, h2]
    norm_num
  · exact h1

/-- Witness for C3's amended theorem at a concrete input with a positive
transaction count: the formula branch applies. -/
theorem errorRate_formula_witness :
    0 < (runOverallQuery 0 noFilters oneOkRowTable).total_transactions
    ∧ (getHealthOverview 0 noFilters oneOkRowTable (Except.ok ())).errorRate
        = 100 * ((runOverallQuery 0 noFilters oneOkRowTable).error_count : ℚ)
          / ((runOverallQuery 0 noFilters oneOkRowTable).total_transactions : ℚ) :=
  ⟨by decide,
   ((errorRate_formula_and_bounds 0 noFilters oneOkRowTable (Except.ok ())).2.2.2 rfl).1
     (by decide)⟩

/-- Folding the digit-accumulation step over an all-digit character list
from a defined accumulator stays defined. -/
theorem digitsFoldl_some (l : List Char) (acc : Nat) (h : ∀ c ∈ l, c.isDigit) :
    ∃ m, l.foldl (fun a c =>
        a.bind (fun n => if c.isDigit then some (10 * n + (c.toNat - 48)) else none))
        (some acc) = some m := by
  induction l generalizing acc with
  | nil => exact ⟨acc, rfl⟩
  | cons c cs ih =>
      have hc : c.isDigit := h c (List.mem_cons_self c cs)
      rw [List.foldl_cons]
      have hstep : (some acc).bind
          (fun n => if c.isDigit then some (10 * n + (c.toNat - 48)) else none)
          = some (10 * acc + (c.toNat - 48)) := by
        simp [hc]
      rw [hstep]
      exact ih _ (fun d hd => h d (List.mem_cons_of_mem c hd))

/-- A nonempty string of decimal digits coerces under the modelled
`Number()` to a defined, nonnegative value. -/
theorem jsNumber_digit_string (s : String) (hne : s.data ≠ [])
    (hdig : ∀ c ∈ s.data, c.isDigit) : ∃ n : Nat, jsNumber s = some (n : ℚ) := by
  have hs : s ≠ "" := by
    intro h
    rw [h] at hne
    exact hne rfl
  cases hd : s.data with
  | nil => exact absurd hd hne
  | cons c cs =>
      have hdig2 : ∀ d ∈ c :: cs, Char.isDigit d := by
        rw [hd] at hdig
        exact hdig
      have hcdig : c.isDigit := hdig2 c (List.mem_cons_self c cs)
      have hcne : c ≠ '-' := by
        intro h
        rw [h] at hcdig
        exact absurd hcdig (by decide)
      have hhead : ¬ s.data.head? = some '-' := by
        rw [hd]
        simp [hcne]
      unfold jsNumber
      rw [if_neg hs, if_neg hhead, hd]
      obtain ⟨m, hm⟩ := digitsFoldl_some (c :: cs) 0 hdig2
      have hdg : jsNumber.digitsToNat (c :: cs) = some m := hm
      rw [hdg]
      exact ⟨m, by simp⟩

/-- C9 (amended): the decode step is a bare `Number()` coercion, not a
validator.  Only the single overall row is defaulted: an absent row or a
falsy (empty) field yields 0 via `|| 0`; any other text goes through
`Number()` unchanged.  The per-row decodes (applications, top talkers,
timeline) coerce each numeric field with `Number()` verbatim — no
rejection and no defaulting — so well-formed digit text yields a defined
nonnegative value, while malformed text becomes NaN and negative text a
negative number, silently carried into the returned shapes. -/
theorem decode_coerces_without_validation :
    (∀ f : HealthOverviewRowS → String, decodeOverallField none f = some 0)
    ∧ (∀ (row : HealthOverviewRowS) (f : HealthOverviewRowS → String),
        f row = "" → decodeOverallField (some row) f = some 0)
    ∧ (∀ (row : HealthOverviewRowS) (f : HealthOverviewRowS → String),
        f row ≠ "" → decodeOverallField (some row) f = jsNumber (f row))
    ∧ (∀ a : ApplicationRowS,
        (decodeAppRowS a).totalTransactions = jsNumber a.total_transactions
        ∧ (decodeAppRowS a).errorCount = jsNumber a.error_count
        ∧ (decodeAppRowS a).avgLatencyMs = jsNumber a.avg_latency_ms
        ∧ (decodeAppRowS a).p95LatencyMs = jsNumber a.p95_latency_ms)
    ∧ (∀ r : TopTalkerRowS,
        (decodeTalkerRowS r).bytes = jsNumber r.bytes
        ∧ (decodeTalkerRowS r).requestCount = jsNumber r.request_count)
    ∧ (∀ s : String, s.data ≠ [] → (∀ c ∈ s.data, c.isDigit) →
        (jsNumber s).isSome = true ∧ 0 ≤ (jsNumber s).getD 0) := by
  refine ⟨fun f => rfl, ?_, ?_, fun a => ⟨rfl, rfl, rfl, rfl⟩, fun r => ⟨rfl, rfl⟩, ?_⟩
  · intro row f hf
    simp [decodeOverallField, hf]
  · intro row f hf
    simp [decodeOverallField, hf]
  · intro s hne hdig
    obtain ⟨n, hn⟩ := jsNumber_digit_string s hne hdig
    rw [hn]
    exact ⟨rfl, by simp⟩

/-- Counterexample to C9 as stated: the top-talker decode turns the
malformed bytes text "garbage" into NaN and the application decode passes
the negative text "-2" through as −2 — malformed and negative values are
silently propagated, so not every numeric field of the returned shapes is
a well-defined nonnegative number. -/
theorem decode_propagates_malformed_refuted :
    (decodeTalkerRowS ⟨"10.0.0.1", "10.0.0.2", "garbage", "3"⟩).bytes = none
    ∧ (decodeAppRowS ⟨"appA", "5", "-2", "1", "1"⟩).errorCount = some (-2)
    ∧ ((-2 : ℚ) < 0) := by
  refine ⟨by decide, ?_, by norm_num⟩
  show jsNumber "-2" = some (-2)
  have h2 : jsNumber.digitsToNat ['2'] = some 2 := by decide
  unfold jsNumber
  rw [if_neg (by decide : ¬ ("-2" : String) = "")]
  rw [if_pos (by decide : ("-2" : String).data.head? = some '-')]
  have htail : ("-2" : String).data.tail = ['2'] := by decide
  rw [htail, h2]
  simp

/-- Witness for C9's amended theorem at concrete rows: an empty overall
field defaults to 0, a non-empty overall field goes through Number()
verbatim, and the digit string "123" decodes to a defined value. -/
theorem decode_coerces_witness :
    decodeOverallField (some ⟨"", "", "", "", "", ""⟩) (fun r => r.total_transactions)
      = some 0
    ∧ decodeOverallField (some ⟨"7", "", "", "", "", ""⟩) (fun r => r.total_transactions)
      = jsNumber "7"
    ∧ (jsNumber "123").isSome = true
    ∧ 0 ≤ (jsNumber "123").getD 0 :=
  ⟨decode_coerces_without_validation.2.1 ⟨"", "", "", "", "", ""⟩
      (fun r => r.total_transactions) rfl,
   decode_coerces_without_validation.2.2.1 ⟨"7", "", "", "", "", ""⟩
      (fun r => r.total_transactions) (by decide),
   (decode_coerces_without_validation.2.2.2.2.2 "123" (by decide) (by decide)).1,
   (decode_coerces_without_validation.2.2.2.2.2 "123" (by decide) (by decide)).2⟩

/-- Concrete snapshot payload for exercising the client reducers. -/
def cexDashboardData : DashboardData :=
  { healthOverview := emptyHealthOverview, topTalkers := [], trafficTimeline := [],
    filterHours := 24, generatedAt := "t0" }

/-- Concrete client state in the Ready condition: a snapshot is held, no
fetch is in flight, no error is flagged. -/
def readyState : ClientState :=
  { data := some cexDashboardData, loading := false, error := none, hours := 24,
    selectedApp := none, appDetails := none, loadingDetails := false,
    lastUpdated := some "t0" }

/-- C4 (amended): when the drilldown fetch fails, handleAppClick catches
the failure and only logs it: the error flag is left unchanged (still
clear), the details stay absent, the loading flag is cleared, and the
component renders the detail view's loading skeleton — a silent degraded
state, not an explicit user-visible error state.  No exception propagates
(the reducer is total). -/
theorem drilldown_failure_silent :
    ∀ (s : ClientState) (nm : String) (d : DashboardData),
      nm ≠ "" → s.data = some d → s.loading = false → s.error = none →
      (handleAppClick s (some nm) (Except.error ())).error = none
      ∧ (handleAppClick s (some nm) (Except.error ())).appDetails = none
      ∧ (handleAppClick s (some nm) (Except.error ())).loadingDetails = false
      ∧ renderView (handleAppClick s (some nm) (Except.error ())) = View.detailSkeleton := by
  intro s nm d hnm hdata hload herr
  simp only [handleAppClick, if_neg hnm]
  refine ⟨herr, by trivial, by trivial, ?_⟩
  simp [renderView, hdata, hload, herr]

/-- Counterexample to C4 as stated: from a clean Ready state, a failing
drilldown fetch leaves the error flag clear and renders the detail
skeleton — an empty/degraded view, not an explicit error state. -/
theorem drilldown_failure_refuted :
    (handleAppClick readyState (some "appA") (Except.error ())).error = none
    ∧ renderView (handleAppClick readyState (some "appA") (Except.error ()))
        = View.detailSkeleton := by
  decide

/-- Witness for C4's amended theorem at the concrete Ready state. -/
theorem drilldown_failure_silent_witness :
    (handleAppClick readyState (some "appA") (Except.error ())).error = none
    ∧ (handleAppClick readyState (some "appA") (Except.error ())).appDetails = none
    ∧ (handleAppClick readyState (some "appA") (Except.error ())).loadingDetails = false
    ∧ renderView (handleAppClick readyState (some "appA") (Except.error ()))
        = View.detailSkeleton :=
  drilldown_failure_silent readyState "appA" cexDashboardData
    (by decide) rfl rfl rfl

/-- C8 (amended): on any fetch failure the previously held snapshot is
preserved unchanged; refreshData additionally sets the error flag
("Failed to refresh data") alongside the stale snapshot, but
handleHoursChange (the filter-change path) only logs — it leaves the
error flag exactly as it was.  The snapshot is replaced wholesale only on
a successful parse. -/
theorem fetch_failure_preserves_snapshot :
    ∀ (s : ClientState) (h : Nat) (d : DashboardData),
      ((refreshData s (Except.error ())).data = s.data
        ∧ (refreshData s (Except.error ())).error = some "Failed to refresh data")
      ∧ ((handleHoursChange s h (Except.error ())).data = s.data
        ∧ (handleHoursChange s h (Except.error ())).error = s.error)
      ∧ ((refreshData s (Except.ok (some d))).data = some d
        ∧ (refreshData s (Except.ok (some d))).error = none
        ∧ (handleHoursChange s h (Except.ok (some d))).data = some d) := by
  intro s h d
  exact ⟨⟨rfl, rfl⟩, ⟨rfl, rfl⟩, ⟨rfl, rfl, rfl⟩⟩

/-- Counterexample to C8 as stated: from a clean Ready state, a failing
filter-change fetch preserves the snapshot but does not set the error
flag — refuting "the error flag is set alongside the stale data" for the
filter-change path. -/
theorem filter_change_failure_refuted :
    (handleHoursChange readyState 6 (Except.error ())).error = none
    ∧ (handleHoursChange readyState 6 (Except.error ())).data = some cexDashboardData := by
  decide

end OmnisDashboard
